import Mathlib

set_option linter.unusedVariables false

/-
Verification of the rhinocommon C binding layer for ON_Viewport
(src/c/on_viewport.cpp) against its specification.

The binding layer in src/c/on_viewport.cpp is translated directly into
Lean below: a C pointer argument becomes `Option Viewport` (with `none`
playing the role of the null pointer), output pointers become returned
values (with an explicit `Bool` for pointer non-nullness where a claim
depends on the null-check structure), and each binding function keeps
the source's control flow.

The wrapped geometry kernel (the ON_Viewport class itself) is not part
of this repository's sources, so its methods are modelled from the
specification; each such definition carries a doc comment starting
with `Modelled from the spec:`.  Scalars are modelled as rationals so
that all definitions are executable and all predicates decidable.
-/

set_option autoImplicit false

namespace OnViewport

/-- A 3d point with rational coordinates, standing for ON_3dPoint /
ON_3DPOINT_STRUCT (coordinates pass through the ABI struct unchanged). -/
structure Point3 where
  x : ℚ
  y : ℚ
  z : ℚ
  deriving DecidableEq, Repr

/-- A 3d vector with rational coordinates, standing for ON_3dVector /
ON_3DVECTOR_STRUCT. -/
structure Vector3 where
  x : ℚ
  y : ℚ
  z : ℚ
  deriving DecidableEq, Repr

/-- The zero vector. -/
def Vector3.zero : Vector3 := ⟨0, 0, 0⟩

/-- Vector addition. -/
def Vector3.add (u v : Vector3) : Vector3 := ⟨u.x + v.x, u.y + v.y, u.z + v.z⟩

/-- Scalar multiple of a vector. -/
def Vector3.smul (c : ℚ) (v : Vector3) : Vector3 := ⟨c * v.x, c * v.y, c * v.z⟩

/-- Vector negation. -/
def Vector3.neg (v : Vector3) : Vector3 := ⟨-v.x, -v.y, -v.z⟩

/-- Dot product. -/
def Vector3.dot (u v : Vector3) : ℚ := u.x * v.x + u.y * v.y + u.z * v.z

/-- Cross product. -/
def Vector3.cross (u v : Vector3) : Vector3 :=
  ⟨u.y * v.z - u.z * v.y, u.z * v.x - u.x * v.z, u.x * v.y - u.y * v.x⟩

/-- Difference of two points, as a vector. -/
def Point3.sub (p q : Point3) : Vector3 := ⟨p.x - q.x, p.y - q.y, p.z - q.z⟩

/-- Translate a point by a vector. -/
def Point3.addVec (p : Point3) (v : Vector3) : Point3 := ⟨p.x + v.x, p.y + v.y, p.z + v.z⟩

/-- The coordinate-preserving conversion ON_3dVector(v.val) applied by the
binding layer to an incoming ON_3DPOINT_STRUCT: the three coordinates pass
through unchanged, only the nominal type changes. -/
def pointStructToVector (p : Point3) : Vector3 := ⟨p.x, p.y, p.z⟩

/-- The coordinate-preserving implicit conversion from ON_3dVector to
ON_3dPoint performed at the call of ON_Viewport::SetCameraLocation(const
ON_3dPoint&): coordinates pass through unchanged. -/
def vectorToPoint (v : Vector3) : Point3 := ⟨v.x, v.y, v.z⟩

/-- Projection mode of a viewport: mutually exclusive states of the §4.2
state machine. -/
inductive Projection where
  | parallel
  | perspective
  | twoPointPerspective
  deriving DecidableEq, Repr

/-- The six frustum scalars of the data model (§3). -/
structure Frustum where
  left : ℚ
  right : ℚ
  bottom : ℚ
  top : ℚ
  nearDist : ℚ
  farDist : ℚ
  deriving DecidableEq, Repr

/-- A UUID, modelled as a natural number; `nilUUID` is the nil UUID. -/
abbrev UUID : Type := ℕ

/-- The nil UUID (ON_nil_uuid). -/
def nilUUID : UUID := 0

/-- A plane, given by a point on it and a normal vector (standing for
ON_Plane / ON_PLANE_STRUCT). -/
structure Plane where
  origin : Point3
  normal : Vector3
  deriving DecidableEq, Repr

/-- Modelled from the spec: the Viewport aggregate of §3 (the ON_Viewport
class lives in the wrapped kernel, not in this repository).  Camera state,
lock flags, projection mode, frustum scalars and symmetry flags, screen
port, target point and viewport id. -/
structure Viewport where
  cameraLocation : Point3
  cameraDirection : Vector3
  cameraUp : Vector3
  locationLocked : Bool
  directionLocked : Bool
  upLocked : Bool
  projection : Projection
  frustum : Frustum
  lrSymmetric : Bool
  tbSymmetric : Bool
  screenLeft : ℤ
  screenRight : ℤ
  screenBottom : ℤ
  screenTop : ℤ
  screenNear : ℤ
  screenFar : ℤ
  targetPoint : Point3
  viewportId : UUID
  deriving DecidableEq, Repr

/-- Modelled from the spec: the default (empty) viewport produced by the
kernel's default constructor — a valid default camera and frustum. -/
def defaultViewport : Viewport where
  cameraLocation := ⟨0, 0, 100⟩
  cameraDirection := ⟨0, 0, -1⟩
  cameraUp := ⟨0, 1, 0⟩
  locationLocked := false
  directionLocked := false
  upLocked := false
  projection := Projection.parallel
  frustum := ⟨-20, 20, -20, 20, 1, 1000⟩
  lrSymmetric := true
  tbSymmetric := true
  screenLeft := 0
  screenRight := 1000
  screenBottom := 1000
  screenTop := 0
  screenNear := 0
  screenFar := 1
  targetPoint := ⟨0, 0, 0⟩
  viewportId := nilUUID

namespace Viewport

/-- Modelled from the spec: IsValidCamera — direction and up non-degenerate
and non-parallel, equivalently their cross product is nonzero. -/
def isValidCamera (vp : Viewport) : Bool :=
  decide (vp.cameraDirection.cross vp.cameraUp ≠ Vector3.zero)

/-- Frustum bounds validity: left < right, bottom < top, 0 < near < far (§3). -/
def frustumBoundsValid (l r b t n f : ℚ) : Bool :=
  decide (l < r) && decide (b < t) && decide (0 < n) && decide (n < f)

/-- Modelled from the spec: IsValidFrustum — the §3 frustum invariant holds. -/
def isValidFrustum (vp : Viewport) : Bool :=
  frustumBoundsValid vp.frustum.left vp.frustum.right vp.frustum.bottom
    vp.frustum.top vp.frustum.nearDist vp.frustum.farDist

/-- Modelled from the spec: IsValid — both camera and frustum valid. -/
def isValid (vp : Viewport) : Bool :=
  vp.isValidCamera && vp.isValidFrustum

/-- Modelled from the spec: the camera unit z axis, pointing away from the
view direction (the data model requires `cameraDirection` to be unit). -/
def cameraZ (vp : Viewport) : Vector3 := vp.cameraDirection.neg

/-- Modelled from the spec: the camera x axis, derived from direction and up. -/
def cameraX (vp : Viewport) : Vector3 := vp.cameraDirection.cross vp.cameraUp

/-- Modelled from the spec: the camera y axis, completing the frame. -/
def cameraY (vp : Viewport) : Vector3 := (vp.cameraZ).cross vp.cameraX

/-- Modelled from the spec: ON_Viewport::SetCameraLocation(const ON_3dPoint&)
sets the camera location to the given point; a mutation of the location is
rejected (failure, no state change) while the location lock flag is set (§4.1). -/
def setCameraLocation (vp : Viewport) (p : Point3) : Bool × Viewport :=
  if vp.locationLocked then (false, vp)
  else (true, { vp with cameraLocation := p })

/-- Modelled from the spec: ON_Viewport::SetCameraDirection sets the camera
direction; rejected (failure, no state change) while the direction lock flag
is set (§4.1). -/
def setCameraDirection (vp : Viewport) (v : Vector3) : Bool × Viewport :=
  if vp.directionLocked then (false, vp)
  else (true, { vp with cameraDirection := v })

/-- Modelled from the spec: ON_Viewport::SetCameraUp sets the camera up
vector; rejected (failure, no state change) while the up lock flag is set (§4.1). -/
def setCameraUp (vp : Viewport) (v : Vector3) : Bool × Viewport :=
  if vp.upLocked then (false, vp)
  else (true, { vp with cameraUp := v })

/-- Modelled from the spec: ON_Viewport::SetFrustum — direct accessor to the
six scalars; fails (no state change) if left >= right, bottom >= top,
near <= 0 or near >= far (§4.3, §8). -/
def setFrustum (vp : Viewport) (l r b t n f : ℚ) : Bool × Viewport :=
  if frustumBoundsValid l r b t n f then
    (true, { vp with frustum := ⟨l, r, b, t, n, f⟩ })
  else (false, vp)

/-- Modelled from the spec: ON_Viewport::GetFrustum — direct accessor
returning the six frustum scalars. -/
def getFrustum (vp : Viewport) : ℚ × ℚ × ℚ × ℚ × ℚ × ℚ :=
  (vp.frustum.left, vp.frustum.right, vp.frustum.bottom, vp.frustum.top,
   vp.frustum.nearDist, vp.frustum.farDist)

/-- Recenter an interval [a, b] symmetrically around zero, keeping its width:
the helper used when a frustum axis is forced symmetric. -/
def symmetrize (a b : ℚ) : ℚ × ℚ := (-(b - a) / 2, (b - a) / 2)

/-- Modelled from the spec: ON_Viewport::ChangeToParallelProjection —
converts the current frustum to an orthographic volume preserving apparent
framing; if `symmetricFrustum`, forces left = -right and bottom = -top;
fails (no state change) if the camera or frustum is currently invalid (§4.2). -/
def changeToParallelProjection (vp : Viewport) (symmetricFrustum : Bool) :
    Bool × Viewport :=
  if vp.isValid then
    let fr := vp.frustum
    let lr := if symmetricFrustum then symmetrize fr.left fr.right
              else (fr.left, fr.right)
    let bt := if symmetricFrustum then symmetrize fr.bottom fr.top
              else (fr.bottom, fr.top)
    (true, { vp with
      projection := Projection.parallel
      frustum := ⟨lr.1, lr.2, bt.1, bt.2, fr.nearDist, fr.farDist⟩
      lrSymmetric := symmetricFrustum || vp.lrSymmetric
      tbSymmetric := symmetricFrustum || vp.tbSymmetric })
  else (false, vp)

/-- Modelled from the spec: ON_Viewport::ChangeToPerspectiveProjection —
derives a frustum at `targetDistance` consistent with the 35mm-equivalent
`lensLength` (35mm film gate: 36mm x 24mm, so half-width 18/lens and
half-height 12/lens per unit of depth); fails (no state change) if
`targetDistance <= 0`, the lens length is non-positive, or the camera or
frustum is currently invalid (§4.2, §7). -/
def changeToPerspectiveProjection (vp : Viewport) (targetDistance : ℚ)
    (symmetricFrustum : Bool) (lensLength : ℚ) : Bool × Viewport :=
  if vp.isValid && decide (0 < targetDistance) && decide (0 < lensLength) then
    let n := vp.frustum.nearDist
    let hw := n * 18 / lensLength
    let hh := n * 12 / lensLength
    (true, { vp with
      projection := Projection.perspective
      frustum := ⟨-hw, hw, -hh, hh, n, vp.frustum.farDist⟩
      lrSymmetric := symmetricFrustum || vp.lrSymmetric
      tbSymmetric := symmetricFrustum || vp.tbSymmetric })
  else (false, vp)

/-- Modelled from the spec: ON_Viewport::ChangeToTwoPointPerspectiveProjection —
as the perspective transition, but keeps vertical lines parallel using the
supplied up vector in place of the camera's current up; fails (no state
change) if `targetDistance <= 0`, the lens length is non-positive, the up
vector is degenerate with the view direction, or the camera or frustum is
currently invalid (§4.2, §7). -/
def changeToTwoPointPerspectiveProjection (vp : Viewport) (targetDistance : ℚ)
    (up : Vector3) (lensLength : ℚ) : Bool × Viewport :=
  if vp.isValid && decide (0 < targetDistance) && decide (0 < lensLength)
      && decide (vp.cameraDirection.cross up ≠ Vector3.zero) then
    let n := vp.frustum.nearDist
    let hw := n * 18 / lensLength
    let hh := n * 12 / lensLength
    (true, { vp with
      projection := Projection.twoPointPerspective
      cameraUp := up
      frustum := ⟨-hw, hw, -hh, hh, n, vp.frustum.farDist⟩ })
  else (false, vp)

/-- Modelled from the spec: ON_Viewport::ChangeToSymmetricFrustum — adjusts
the requested frustum axes so they become symmetric around the view axis,
preserving the width of each axis; fails (no state change) if the camera or
frustum is currently invalid (§4.2). -/
def changeToSymmetricFrustum (vp : Viewport) (isLeftRightSymmetric : Bool)
    (isTopBottomSymmetric : Bool) (_targetDistance : ℚ) : Bool × Viewport :=
  if vp.isValid then
    let fr := vp.frustum
    let lr := if isLeftRightSymmetric then symmetrize fr.left fr.right
              else (fr.left, fr.right)
    let bt := if isTopBottomSymmetric then symmetrize fr.bottom fr.top
              else (fr.bottom, fr.top)
    (true, { vp with
      frustum := ⟨lr.1, lr.2, bt.1, bt.2, fr.nearDist, fr.farDist⟩
      lrSymmetric := isLeftRightSymmetric || vp.lrSymmetric
      tbSymmetric := isTopBottomSymmetric || vp.tbSymmetric })
  else (false, vp)

/-- Modelled from the spec: the projected depth of a point — its signed
distance from the camera location along the (unit) view direction (§4.3). -/
def pointDepth (vp : Viewport) (p : Point3) : ℚ :=
  (p.sub vp.cameraLocation).dot vp.cameraDirection

/-- Modelled from the spec: ON_Viewport::GetPointDepth — projects the point
onto the view axis; with `growNearFar` the result is the union of the
caller-supplied [nearDistance, farDistance] interval with the point's depth,
otherwise a fresh replacement (§4.3). -/
def getPointDepth (vp : Viewport) (p : Point3) (nearDistance farDistance : ℚ)
    (growNearFar : Bool) : Bool × ℚ × ℚ :=
  let d := vp.pointDepth p
  if growNearFar then (true, min nearDistance d, max farDistance d)
  else (true, d, d)

/-- The eight corners of an axis-aligned bounding box given by min/max points. -/
def boxCorners (bmin bmax : Point3) : List Point3 :=
  [⟨bmin.x, bmin.y, bmin.z⟩, ⟨bmax.x, bmin.y, bmin.z⟩,
   ⟨bmin.x, bmax.y, bmin.z⟩, ⟨bmax.x, bmax.y, bmin.z⟩,
   ⟨bmin.x, bmin.y, bmax.z⟩, ⟨bmax.x, bmin.y, bmax.z⟩,
   ⟨bmin.x, bmax.y, bmax.z⟩, ⟨bmax.x, bmax.y, bmax.z⟩]

/-- Modelled from the spec: the projected depth range of a bounding box —
the min and max over its corners of the projected depth. -/
def boxDepthRange (vp : Viewport) (bmin bmax : Point3) : ℚ × ℚ :=
  let d0 := vp.pointDepth ⟨bmin.x, bmin.y, bmin.z⟩
  ((boxCorners bmin bmax).foldl (fun a p => min a (vp.pointDepth p)) d0,
   (boxCorners bmin bmax).foldl (fun a p => max a (vp.pointDepth p)) d0)

/-- Modelled from the spec: ON_Viewport::GetBoundingBoxDepth — projects the
box onto the view axis; with `growNearFar` the result is the union of the
caller-supplied [nearDistance, farDistance] interval with the box's projected
depth range, otherwise a fresh replacement (§4.3). -/
def getBoundingBoxDepth (vp : Viewport) (bmin bmax : Point3)
    (nearDistance farDistance : ℚ) (growNearFar : Bool) : Bool × ℚ × ℚ :=
  let r := vp.boxDepthRange bmin bmax
  if growNearFar then (true, min nearDistance r.1, max farDistance r.2)
  else (true, r.1, r.2)

/-- Modelled from the spec: ON_Viewport::GetSphereDepth — the sphere's depth
range is center depth ± radius; with `growNearFar` the result is the union
with the caller-supplied interval, otherwise a fresh replacement (§4.3). -/
def getSphereDepth (vp : Viewport) (center : Point3) (radius : ℚ)
    (nearDistance farDistance : ℚ) (growNearFar : Bool) : Bool × ℚ × ℚ :=
  let c := vp.pointDepth center
  if growNearFar then (true, min nearDistance (c - radius), max farDistance (c + radius))
  else (true, c - radius, c + radius)

/-- Map a camera-space coordinate (x across, y up, d depth in front of the
camera) to world space using the camera frame. -/
def camToWorld (vp : Viewport) (x y d : ℚ) : Point3 :=
  ((vp.cameraLocation.addVec (Vector3.smul x vp.cameraX)).addVec
    (Vector3.smul y vp.cameraY)).addVec (Vector3.smul d vp.cameraDirection)

/-- Modelled from the spec: ON_Viewport::GetNearRect — the four world-space
corners of the near-plane rectangle, ordered leftBottom, rightBottom,
leftTop, rightTop; valid only for a valid frustum (§4.3). -/
def getNearRect (vp : Viewport) : Bool × (Point3 × Point3 × Point3 × Point3) :=
  let fr := vp.frustum
  (vp.isValidFrustum,
   (vp.camToWorld fr.left fr.bottom fr.nearDist,
    vp.camToWorld fr.right fr.bottom fr.nearDist,
    vp.camToWorld fr.left fr.top fr.nearDist,
    vp.camToWorld fr.right fr.top fr.nearDist))

/-- Modelled from the spec: ON_Viewport::GetFarRect — the four world-space
corners of the far-plane rectangle, same ordering as the near rectangle. -/
def getFarRect (vp : Viewport) : Bool × (Point3 × Point3 × Point3 × Point3) :=
  let fr := vp.frustum
  (vp.isValidFrustum,
   (vp.camToWorld fr.left fr.bottom fr.farDist,
    vp.camToWorld fr.right fr.bottom fr.farDist,
    vp.camToWorld fr.left fr.top fr.farDist,
    vp.camToWorld fr.right fr.top fr.farDist))

/-- Modelled from the spec: ON_Viewport::GetCameraFrame — the camera
location and the three orthonormal basis vectors, atomically; succeeds for
a valid camera (§4.1). -/
def getCameraFrame (vp : Viewport) :
    Bool × (Point3 × Vector3 × Vector3 × Vector3) :=
  (vp.isValidCamera, (vp.cameraLocation, vp.cameraX, vp.cameraY, vp.cameraZ))

/-- Modelled from the spec: one of the six bounding planes of the frustum in
world space, each given by a point on it and an outward normal along the
relevant camera axis; fails if the frustum is degenerate (§4.3). -/
def getNamedPlane (vp : Viewport) (axis : Vector3) (origin : Point3) :
    Bool × Plane :=
  (vp.isValid, ⟨origin, axis⟩)

/-- Modelled from the spec: ON_Viewport::GetNearPlane. -/
def getNearPlane (vp : Viewport) : Bool × Plane :=
  vp.getNamedPlane vp.cameraZ (vp.camToWorld 0 0 vp.frustum.nearDist)

/-- Modelled from the spec: ON_Viewport::GetFarPlane. -/
def getFarPlane (vp : Viewport) : Bool × Plane :=
  vp.getNamedPlane vp.cameraZ.neg (vp.camToWorld 0 0 vp.frustum.farDist)

/-- Modelled from the spec: ON_Viewport::GetFrustumLeftPlane. -/
def getFrustumLeftPlane (vp : Viewport) : Bool × Plane :=
  vp.getNamedPlane vp.cameraX.neg (vp.camToWorld vp.frustum.left 0 vp.frustum.nearDist)

/-- Modelled from the spec: ON_Viewport::GetFrustumRightPlane. -/
def getFrustumRightPlane (vp : Viewport) : Bool × Plane :=
  vp.getNamedPlane vp.cameraX (vp.camToWorld vp.frustum.right 0 vp.frustum.nearDist)

/-- Modelled from the spec: ON_Viewport::GetFrustumBottomPlane. -/
def getFrustumBottomPlane (vp : Viewport) : Bool × Plane :=
  vp.getNamedPlane vp.cameraY.neg (vp.camToWorld 0 vp.frustum.bottom vp.frustum.nearDist)

/-- Modelled from the spec: ON_Viewport::GetFrustumTopPlane. -/
def getFrustumTopPlane (vp : Viewport) : Bool × Plane :=
  vp.getNamedPlane vp.cameraY (vp.camToWorld 0 vp.frustum.top vp.frustum.nearDist)

/-- Modelled from the spec: the kernel frustum scalar accessors of §4.3
(FrustumLeft .. FrustumFar, and the minimum/maximum frustum diameters). -/
def frustumMinimumDiameter (vp : Viewport) : ℚ :=
  min (vp.frustum.right - vp.frustum.left) (vp.frustum.top - vp.frustum.bottom)

/-- Modelled from the spec: the maximum of the frustum width and height. -/
def frustumMaximumDiameter (vp : Viewport) : ℚ :=
  max (vp.frustum.right - vp.frustum.left) (vp.frustum.top - vp.frustum.bottom)

/-- Modelled from the spec: ON_Viewport::TargetDistance — the distance from
the camera location to the target point along the view axis (§3). -/
def targetDistance (vp : Viewport) (_useFrustumCenterFallback : Bool) : ℚ :=
  vp.pointDepth vp.targetPoint

/-- Modelled from the spec: projection-mode predicate — perspective includes
the two-point-perspective state. -/
def isPerspectiveProjection (vp : Viewport) : Bool :=
  match vp.projection with
  | Projection.perspective => true
  | Projection.twoPointPerspective => true
  | Projection.parallel => false

/-- Modelled from the spec: parallel-projection predicate. -/
def isParallelProjection (vp : Viewport) : Bool :=
  match vp.projection with
  | Projection.parallel => true
  | _ => false

end Viewport

/-
Binding layer, translated function by function from src/c/on_viewport.cpp.
A null pointer is `none`; an output pointer whose nullness matters to a
claim is an `Option` buffer argument whose post-call content is returned.
The V5-conditional branches are included (the spec strips the
version-conditional availability).
-/

/-- ON_Viewport_New: copy-construct from a non-null source, default-construct
from a null one (src lines 3-10). -/
def ON_Viewport_New (pVP : Option Viewport) : Viewport :=
  match pVP with
  | some vp => vp
  | none => defaultViewport

/-- ON_Viewport_GetBool (src lines 21-75): enum-dispatched boolean queries;
`which` outside 0..9 falls to the default branch and returns false. -/
def ON_Viewport_GetBool (pConstViewport : Option Viewport) (which : ℤ) : Bool :=
  match pConstViewport with
  | none => false
  | some vp =>
    if which = 0 then vp.isValidCamera
    else if which = 1 then vp.isValidFrustum
    else if which = 2 then vp.isValid
    else if which = 3 then vp.isPerspectiveProjection
    else if which = 4 then vp.isParallelProjection
    else if which = 5 then vp.locationLocked
    else if which = 6 then vp.directionLocked
    else if which = 7 then vp.upLocked
    else if which = 8 then vp.lrSymmetric
    else if which = 9 then vp.tbSymmetric
    else false

/-- ON_Viewport_ChangeToParallelProjection (src lines 78-85). -/
def ON_Viewport_ChangeToParallelProjection (pVP : Option Viewport)
    (symmetricFrustum : Bool) : Bool × Option Viewport :=
  match pVP with
  | none => (false, none)
  | some vp =>
    let k := vp.changeToParallelProjection symmetricFrustum
    (k.1, some k.2)

/-- ON_Viewport_ChangeToPerspectiveProjection (src lines 87-94). -/
def ON_Viewport_ChangeToPerspectiveProjection (pVP : Option Viewport)
    (targetDistance : ℚ) (symmetricFrustum : Bool) (lensLength : ℚ) :
    Bool × Option Viewport :=
  match pVP with
  | none => (false, none)
  | some vp =>
    let k := vp.changeToPerspectiveProjection targetDistance symmetricFrustum lensLength
    (k.1, some k.2)

/-- ON_Viewport_ChangeToTwoPointPerspectiveProjection (src lines 96-103). -/
def ON_Viewport_ChangeToTwoPointPerspectiveProjection (pVP : Option Viewport)
    (targetDistance : ℚ) (up : Vector3) (lensLength : ℚ) :
    Bool × Option Viewport :=
  match pVP with
  | none => (false, none)
  | some vp =>
    let k := vp.changeToTwoPointPerspectiveProjection targetDistance up lensLength
    (k.1, some k.2)

/-- ON_Viewport_CameraLocation (src lines 105-108): writes the camera
location through the output pointer when both pointers are non-null; the
returned value is the output buffer's content after the call. -/
def ON_Viewport_CameraLocation (pVP : Option Viewport) (p : Option Point3) :
    Option Point3 :=
  match pVP, p with
  | some vp, some _ => some vp.cameraLocation
  | _, _ => p

/-- ON_Viewport_CameraDirection (src lines 110-113): same output-buffer
convention as ON_Viewport_CameraLocation. -/
def ON_Viewport_CameraDirection (pVP : Option Viewport) (p : Option Vector3) :
    Option Vector3 :=
  match pVP, p with
  | some vp, some _ => some vp.cameraDirection
  | _, _ => p

/-- ON_Viewport_SetCameraDirection (src lines 115-118). -/
def ON_Viewport_SetCameraDirection (pVP : Option Viewport) (v : Vector3) :
    Bool × Option Viewport :=
  match pVP with
  | none => (false, none)
  | some vp =>
    let k := vp.setCameraDirection v
    (k.1, some k.2)

/-- ON_Viewport_SetCameraLocation (src lines 120-123): the incoming point
struct is converted through ON_3dVector (coordinate-preserving) and then,
at the kernel call, implicitly to ON_3dPoint (coordinate-preserving). -/
def ON_Viewport_SetCameraLocation (pVP : Option Viewport) (v : Point3) :
    Bool × Option Viewport :=
  match pVP with
  | none => (false, none)
  | some vp =>
    let k := vp.setCameraLocation (vectorToPoint (pointStructToVector v))
    (k.1, some k.2)

/-- ON_Viewport_CameraUp (src lines 125-128). -/
def ON_Viewport_CameraUp (pVP : Option Viewport) (p : Option Vector3) :
    Option Vector3 :=
  match pVP, p with
  | some vp, some _ => some vp.cameraUp
  | _, _ => p

/-- ON_Viewport_SetCameraUp (src lines 130-133). -/
def ON_Viewport_SetCameraUp (pVP : Option Viewport) (v : Vector3) :
    Bool × Option Viewport :=
  match pVP with
  | none => (false, none)
  | some vp =>
    let k := vp.setCameraUp v
    (k.1, some k.2)

/-- ON_Viewport_SetLocked (src lines 135-151): sets or clears one of the
three camera lock flags, dispatched on `which` (0 location, 1 direction,
2 up); a void function, so only the (possibly updated) viewport is returned. -/
def ON_Viewport_SetLocked (pViewport : Option Viewport) (which : ℤ) (b : Bool) :
    Option Viewport :=
  match pViewport with
  | none => none
  | some vp =>
    if which = 0 then some { vp with locationLocked := b }
    else if which = 1 then some { vp with directionLocked := b }
    else if which = 2 then some { vp with upLocked := b }
    else some vp

/-- ON_Viewport_GetCameraFrame (src lines 180-188): proceeds only when the
viewport and all four output pointers are non-null; returns the success flag
and the four written values. -/
def ON_Viewport_GetCameraFrame (pVP : Option Viewport) (location : Option Point3)
    (cameraX cameraY cameraZ : Option Vector3) :
    Bool × Option (Point3 × Vector3 × Vector3 × Vector3) :=
  match pVP with
  | none => (false, none)
  | some vp =>
    if location.isSome && cameraX.isSome && cameraY.isSome && cameraZ.isSome then
      let k := vp.getCameraFrame
      (k.1, some k.2)
    else (false, none)

/-- ON_Viewport_CameraAxis (src lines 190-207): writes CameraX/Y/Z into the
output buffer for iAxis 0/1/2 and leaves the buffer untouched for any other
selector; the returned value is the buffer's content after the call. -/
def ON_Viewport_CameraAxis (pConstViewport : Option Viewport) (iAxis : ℤ)
    (v : Option Vector3) : Option Vector3 :=
  match pConstViewport, v with
  | some vp, some _ =>
    if iAxis = 0 then some vp.cameraX
    else if iAxis = 1 then some vp.cameraY
    else if iAxis = 2 then some vp.cameraZ
    else v
  | _, _ => v

/-- ON_Viewport_SetFrustum (src lines 210-216). -/
def ON_Viewport_SetFrustum (pViewport : Option Viewport)
    (left right bottom top nearDistance farDistance : ℚ) :
    Bool × Option Viewport :=
  match pViewport with
  | none => (false, none)
  | some vp =>
    let k := vp.setFrustum left right bottom top nearDistance farDistance
    (k.1, some k.2)

/-- ON_Viewport_GetFrustum (src lines 218-226): returns the success flag and
the six written frustum scalars. -/
def ON_Viewport_GetFrustum (pConstViewport : Option Viewport) :
    Bool × Option (ℚ × ℚ × ℚ × ℚ × ℚ × ℚ) :=
  match pConstViewport with
  | none => (false, none)
  | some vp => (true, some vp.getFrustum)

/-- ON_Viewport_GetDouble (src lines 253-299): enum-dispatched scalar
queries; `which` outside 0..7 falls to the default branch and the initial
rc = 0 is returned. -/
def ON_Viewport_GetDouble (pConstViewport : Option Viewport) (which : ℤ) : ℚ :=
  match pConstViewport with
  | none => 0
  | some vp =>
    if which = 0 then vp.frustum.left
    else if which = 1 then vp.frustum.right
    else if which = 2 then vp.frustum.bottom
    else if which = 3 then vp.frustum.top
    else if which = 4 then vp.frustum.nearDist
    else if which = 5 then vp.frustum.farDist
    else if which = 6 then vp.frustumMinimumDiameter
    else if which = 7 then vp.frustumMaximumDiameter
    else 0

/-- ON_Viewport_ChangeToSymmetricFrustum (src lines 322-331). -/
def ON_Viewport_ChangeToSymmetricFrustum (pVP : Option Viewport)
    (isLeftRightSymmetric isTopBottomSymmetric : Bool) (targetDistance : ℚ) :
    Bool × Option Viewport :=
  match pVP with
  | none => (false, none)
  | some vp =>
    let k := vp.changeToSymmetricFrustum isLeftRightSymmetric isTopBottomSymmetric targetDistance
    (k.1, some k.2)

/-- ON_Viewport_GetPointDepth (src lines 333-342): the near/far output
pointers also carry the caller-supplied existing interval in; returns the
success flag and the written pair. -/
def ON_Viewport_GetPointDepth (pVP : Option Viewport) (point : Point3)
    (nearDistance farDistance : ℚ) (growNearFar : Bool) :
    Bool × Option (ℚ × ℚ) :=
  match pVP with
  | none => (false, none)
  | some vp =>
    let k := vp.getPointDepth point nearDistance farDistance growNearFar
    (k.1, some k.2)

/-- ON_Viewport_GetBoundingBoxDepth (src lines 344-354). -/
def ON_Viewport_GetBoundingBoxDepth (pVP : Option Viewport) (bmin bmax : Point3)
    (nearDistance farDistance : ℚ) (growNearFar : Bool) :
    Bool × Option (ℚ × ℚ) :=
  match pVP with
  | none => (false, none)
  | some vp =>
    let k := vp.getBoundingBoxDepth bmin bmax nearDistance farDistance growNearFar
    (k.1, some k.2)

/-- ON_Viewport_GetSphereDepth (src lines 356-366). -/
def ON_Viewport_GetSphereDepth (pVP : Option Viewport) (center : Point3)
    (radius : ℚ) (nearDistance farDistance : ℚ) (growNearFar : Bool) :
    Bool × Option (ℚ × ℚ) :=
  match pVP with
  | none => (false, none)
  | some vp =>
    let k := vp.getSphereDepth center radius nearDistance farDistance growNearFar
    (k.1, some k.2)

/-- ON_Viewport_GetPlane (src lines 380-419): enum-dispatched plane queries;
`which` outside 0..5 leaves rc false and does not write the output plane, so
the buffer's prior content is returned unchanged. -/
def ON_Viewport_GetPlane (pConstViewport : Option Viewport) (which : ℤ)
    (plane : Option Plane) : Bool × Option Plane :=
  match pConstViewport, plane with
  | some vp, some _ =>
    let k : Bool × Plane :=
      if which = 0 then vp.getNearPlane
      else if which = 1 then vp.getFarPlane
      else if which = 2 then vp.getFrustumLeftPlane
      else if which = 3 then vp.getFrustumRightPlane
      else if which = 4 then vp.getFrustumBottomPlane
      else if which = 5 then vp.getFrustumTopPlane
      else (false, ⟨⟨0, 0, 0⟩, Vector3.zero⟩)
    if k.1 then (true, some k.2) else (false, plane)
  | _, _ => (false, plane)

/-- ON_Viewport_GetNearFarRect (src lines 422-434): the null guard is
translated literally from line 426 — it tests pConstViewport, leftBottom,
rightBottom, leftTop, and then leftBottom a second time; the rightTop
output pointer is never tested.  When the guard passes, the kernel fills
all four corners. -/
def ON_Viewport_GetNearFarRect (pConstViewport : Option Viewport) (isNear : Bool)
    (leftBottom rightBottom leftTop rightTop : Option Point3) :
    Bool × Option (Point3 × Point3 × Point3 × Point3) :=
  match pConstViewport with
  | none => (false, none)
  | some vp =>
    if leftBottom.isSome && rightBottom.isSome && leftTop.isSome && leftBottom.isSome then
      let k := if isNear then vp.getNearRect else vp.getFarRect
      (k.1, some k.2)
    else (false, none)

/-- ON_Viewport_TargetDistance (src lines 623-632): null viewport yields 0.0. -/
def ON_Viewport_TargetDistance (pConstViewport : Option Viewport)
    (useFrustumCenterFallback : Bool) : ℚ :=
  match pConstViewport with
  | none => 0
  | some vp => vp.targetDistance useFrustumCenterFallback

/-- ON_Viewport_GetViewportId (src lines 693-698): null viewport yields the
nil UUID. -/
def ON_Viewport_GetViewportId (pVP : Option Viewport) : UUID :=
  match pVP with
  | none => nilUUID
  | some vp => vp.viewportId

/-- ON_Viewport_SetViewportId (src lines 700-709): returns 1 on a non-null
viewport after setting the id, 0 on a null one. -/
def ON_Viewport_SetViewportId (pVP : Option Viewport) (id : UUID) :
    ℤ × Option Viewport :=
  match pVP with
  | none => (0, none)
  | some vp => (1, some { vp with viewportId := id })

/-
Heap model for the copy-construction claim: the binding layer's viewports
live behind pointers, so value independence of a copy is stated over an
explicit heap (a list of viewport values addressed by index).
ON_Viewport_New allocates fresh storage holding either a copy of the source
or the default viewport (src lines 3-10); mutation updates one cell.
-/

/-- Allocation step of ON_Viewport_New over the explicit heap: appends a copy
of the source cell (or the default viewport when the source handle is null)
and returns the new heap together with the fresh handle. -/
def heapNew (heap : List Viewport) (src : Option ℕ) : List Viewport × ℕ :=
  match src with
  | some i =>
    match heap.get? i with
    | some v => (heap ++ [v], heap.length)
    | none => (heap ++ [defaultViewport], heap.length)
  | none => (heap ++ [defaultViewport], heap.length)

/-- Mutation of one heap cell: applies a viewport mutation to the cell at the
given handle, leaving every other cell untouched. -/
def heapMutate (heap : List Viewport) (i : ℕ) (f : Viewport → Viewport) :
    List Viewport :=
  match heap.get? i with
  | some v => heap.set i (f v)
  | none => heap


/-
Concrete instances used by counterexamples and witnesses.
-/

/-- A viewport whose camera-location lock flag is set. -/
def lockedVP : Viewport := { defaultViewport with locationLocked := true }

/-- A viewport with a degenerate camera: up parallel to the view direction,
so the camera is invalid while the frustum is still the default one. -/
def invalidCameraVP : Viewport := { defaultViewport with cameraUp := ⟨0, 0, -1⟩ }

/-- A viewport with the camera at the origin looking down the negative z
axis, so the projected depth of a point (x, y, z) is -z. -/
def depthVP : Viewport := { defaultViewport with cameraLocation := ⟨0, 0, 0⟩ }

/-- The viewport produced by a successful symmetric parallel-projection
transition on the default viewport. -/
def parallelVP : Viewport := (defaultViewport.changeToParallelProjection true).2

/-
Theorems.
-/

/-- Characterisation of the frustum bounds check. -/
theorem frustumBoundsValid_eq_true_iff {l r b t n f : ℚ} :
    Viewport.frustumBoundsValid l r b t n f = true ↔
      l < r ∧ b < t ∧ 0 < n ∧ n < f := by
  simp only [Viewport.frustumBoundsValid, Bool.and_eq_true, decide_eq_true_eq]
  tauto

/-- A pair whose second component is wrapped in `some` equals a
(success-flag, some-viewport) pair iff the underlying pair matches. -/
theorem pair_some_eq_iff {g : Bool × Viewport} {b : Bool} {vp' : Viewport} :
    ((g.1, some g.2) = ((b, some vp') : Bool × Option Viewport)) ↔ g = (b, vp') := by
  cases g with
  | mk g1 g2 => simp [Prod.ext_iff]

/-- Claim C2: for every viewport and every valid frustum bounds
(l, r, b, t, n, f) with l < r, b < t, 0 < n < f, SetFrustum succeeds and a
subsequent GetFrustum returns exactly the six values. -/
theorem C2_setFrustum_getFrustum_roundtrip (vp : Viewport) (l r b t n f : ℚ)
    (hlr : l < r) (hbt : b < t) (hn : 0 < n) (hnf : n < f) :
    (ON_Viewport_SetFrustum (some vp) l r b t n f).1 = true ∧
    ON_Viewport_GetFrustum (ON_Viewport_SetFrustum (some vp) l r b t n f).2 =
      (true, some (l, r, b, t, n, f)) := by
  have hv : Viewport.frustumBoundsValid l r b t n f = true :=
    frustumBoundsValid_eq_true_iff.mpr ⟨hlr, hbt, hn, hnf⟩
  constructor <;>
    simp [ON_Viewport_SetFrustum, Viewport.setFrustum, hv,
      ON_Viewport_GetFrustum, Viewport.getFrustum]

/-- Claim C2 witness: the round trip at a concrete valid frustum. -/
theorem C2_roundtrip_witness :
    (ON_Viewport_SetFrustum (some defaultViewport) (-1) 2 (-3) 4 1 10).1 = true ∧
    ON_Viewport_GetFrustum (ON_Viewport_SetFrustum (some defaultViewport) (-1) 2 (-3) 4 1 10).2 =
      (true, some (-1, 2, -3, 4, 1, 10)) :=
  C2_setFrustum_getFrustum_roundtrip defaultViewport (-1) 2 (-3) 4 1 10
    (by norm_num) (by norm_num) (by norm_num) (by norm_num)

/-- Claim C3: for every viewport and every bounds with l >= r, or b >= t, or
n <= 0, or n >= f, SetFrustum returns failure and leaves all viewport state
unchanged. -/
theorem C3_setFrustum_invalid_rejected (vp : Viewport) (l r b t n f : ℚ)
    (h : r ≤ l ∨ t ≤ b ∨ n ≤ 0 ∨ f ≤ n) :
    ON_Viewport_SetFrustum (some vp) l r b t n f = (false, some vp) := by
  have hv : Viewport.frustumBoundsValid l r b t n f = false := by
    rcases h with h | h | h | h <;>
      simp [Viewport.frustumBoundsValid, not_lt.mpr h]
  simp [ON_Viewport_SetFrustum, Viewport.setFrustum, hv]

/-- Claim C3 witness: rejection at a concrete malformed frustum. -/
theorem C3_rejected_witness :
    ON_Viewport_SetFrustum (some defaultViewport) 2 (-1) (-3) 4 1 10 =
      (false, some defaultViewport) :=
  C3_setFrustum_invalid_rejected defaultViewport 2 (-1) (-3) 4 1 10
    (Or.inl (by norm_num))

/-- Claim C1 counterexample: on a viewport whose camera-location lock is set,
SetCameraLocation does not make a subsequent CameraLocation query return the
requested point, so the claim as stated (for every viewport) fails. -/
theorem C1_locked_counterexample :
    ¬ (ON_Viewport_CameraLocation
        (ON_Viewport_SetCameraLocation (some lockedVP) ⟨1, 2, 3⟩).2
        (some ⟨0, 0, 0⟩) = some ⟨1, 2, 3⟩) := by
  decide

/-- Claim C1 (amended): for every viewport whose camera-location lock is
clear and every point P, SetCameraLocation succeeds and sets the camera
location to exactly P (a subsequent CameraLocation query returns P itself,
not the old location translated by P). -/
theorem C1_setCameraLocation_sets_point (vp : Viewport) (p : Point3)
    (buf : Point3) (h : vp.locationLocked = false) :
    (ON_Viewport_SetCameraLocation (some vp) p).1 = true ∧
    ON_Viewport_CameraLocation (ON_Viewport_SetCameraLocation (some vp) p).2
      (some buf) = some p := by
  obtain ⟨px, py, pz⟩ := p
  constructor <;>
    simp [ON_Viewport_SetCameraLocation, Viewport.setCameraLocation, h,
      ON_Viewport_CameraLocation, vectorToPoint, pointStructToVector]

/-- Claim C1 witness: on the default viewport (camera at (0, 0, 100),
location unlocked), setting the camera location to (1, 2, 3) yields exactly
(1, 2, 3) — a translation by (1, 2, 3) would have produced (1, 2, 103). -/
theorem C1_set_point_witness :
    defaultViewport.locationLocked = false ∧
    ((ON_Viewport_SetCameraLocation (some defaultViewport) ⟨1, 2, 3⟩).1 = true ∧
     ON_Viewport_CameraLocation
       (ON_Viewport_SetCameraLocation (some defaultViewport) ⟨1, 2, 3⟩).2
       (some ⟨7, 7, 7⟩) = some ⟨1, 2, 3⟩) :=
  ⟨rfl, C1_setCameraLocation_sets_point defaultViewport ⟨1, 2, 3⟩ ⟨7, 7, 7⟩ rfl⟩

/-- Claim C5: for every viewport and each camera field in {location,
direction, up}: after setting that field's lock flag, attempting to set the
field leaves its value unchanged and the setter reports failure; after
clearing the lock, setting the field succeeds (and the field takes the new
value). -/
theorem C5_camera_field_locks (vp : Viewport) (p pbuf : Point3) (v w vbuf : Vector3) :
    ((ON_Viewport_SetCameraLocation (ON_Viewport_SetLocked (some vp) 0 true) p).1 = false ∧
     ON_Viewport_CameraLocation
       (ON_Viewport_SetCameraLocation (ON_Viewport_SetLocked (some vp) 0 true) p).2
       (some pbuf) = some vp.cameraLocation ∧
     (ON_Viewport_SetCameraLocation (ON_Viewport_SetLocked (some vp) 0 false) p).1 = true ∧
     ON_Viewport_CameraLocation
       (ON_Viewport_SetCameraLocation (ON_Viewport_SetLocked (some vp) 0 false) p).2
       (some pbuf) = some p) ∧
    ((ON_Viewport_SetCameraDirection (ON_Viewport_SetLocked (some vp) 1 true) v).1 = false ∧
     ON_Viewport_CameraDirection
       (ON_Viewport_SetCameraDirection (ON_Viewport_SetLocked (some vp) 1 true) v).2
       (some vbuf) = some vp.cameraDirection ∧
     (ON_Viewport_SetCameraDirection (ON_Viewport_SetLocked (some vp) 1 false) v).1 = true ∧
     ON_Viewport_CameraDirection
       (ON_Viewport_SetCameraDirection (ON_Viewport_SetLocked (some vp) 1 false) v).2
       (some vbuf) = some v) ∧
    ((ON_Viewport_SetCameraUp (ON_Viewport_SetLocked (some vp) 2 true) w).1 = false ∧
     ON_Viewport_CameraUp
       (ON_Viewport_SetCameraUp (ON_Viewport_SetLocked (some vp) 2 true) w).2
       (some vbuf) = some vp.cameraUp ∧
     (ON_Viewport_SetCameraUp (ON_Viewport_SetLocked (some vp) 2 false) w).1 = true ∧
     ON_Viewport_CameraUp
       (ON_Viewport_SetCameraUp (ON_Viewport_SetLocked (some vp) 2 false) w).2
       (some vbuf) = some w) := by
  refine ⟨⟨?_, ?_, ?_, ?_⟩, ⟨?_, ?_, ?_, ?_⟩, ⟨?_, ?_, ?_, ?_⟩⟩ <;>
    simp [ON_Viewport_SetLocked, ON_Viewport_SetCameraLocation,
      ON_Viewport_SetCameraDirection, ON_Viewport_SetCameraUp,
      ON_Viewport_CameraLocation, ON_Viewport_CameraDirection,
      ON_Viewport_CameraUp, Viewport.setCameraLocation,
      Viewport.setCameraDirection, Viewport.setCameraUp,
      vectorToPoint, pointStructToVector]
/-- Claim C6: every embedded operation of the surface, invoked on a null
viewport, returns boolean failure for mutations and success-flagged queries,
the defined neutral value for pure accessors (0 for GetDouble and
TargetDistance, the nil UUID for GetViewportId, false for GetBool), and
modifies no state (output buffers are left untouched). -/
theorem C6_null_viewport_neutral (which iAxis : ℤ) (b isNear grow sym lr tb : Bool)
    (p bmin bmax center : Point3) (v up : Vector3) (q : ℚ)
    (buf : Option Point3) (vbuf : Option Vector3) (pbuf : Option Plane)
    (id : UUID) :
    ON_Viewport_GetViewportId none = nilUUID ∧
    ON_Viewport_GetDouble none which = 0 ∧
    ON_Viewport_TargetDistance none b = 0 ∧
    ON_Viewport_GetBool none which = false ∧
    ON_Viewport_SetFrustum none q q q q q q = (false, none) ∧
    ON_Viewport_GetFrustum none = (false, none) ∧
    ON_Viewport_SetCameraLocation none p = (false, none) ∧
    ON_Viewport_SetCameraDirection none v = (false, none) ∧
    ON_Viewport_SetCameraUp none v = (false, none) ∧
    ON_Viewport_CameraLocation none buf = buf ∧
    ON_Viewport_CameraDirection none vbuf = vbuf ∧
    ON_Viewport_CameraUp none vbuf = vbuf ∧
    ON_Viewport_CameraAxis none iAxis vbuf = vbuf ∧
    ON_Viewport_SetLocked none which b = none ∧
    ON_Viewport_GetCameraFrame none buf vbuf vbuf vbuf = (false, none) ∧
    ON_Viewport_ChangeToParallelProjection none sym = (false, none) ∧
    ON_Viewport_ChangeToPerspectiveProjection none q sym q = (false, none) ∧
    ON_Viewport_ChangeToTwoPointPerspectiveProjection none q up q = (false, none) ∧
    ON_Viewport_ChangeToSymmetricFrustum none lr tb q = (false, none) ∧
    ON_Viewport_GetPointDepth none p q q grow = (false, none) ∧
    ON_Viewport_GetBoundingBoxDepth none bmin bmax q q grow = (false, none) ∧
    ON_Viewport_GetSphereDepth none center q q q grow = (false, none) ∧
    ON_Viewport_GetPlane none which pbuf = (false, pbuf) ∧
    ON_Viewport_GetNearFarRect none isNear buf buf buf buf = (false, none) ∧
    ON_Viewport_SetViewportId none id = (0, none) := by
  cases buf <;> cases vbuf <;> cases pbuf <;>
    simp [ON_Viewport_GetViewportId, ON_Viewport_GetDouble,
      ON_Viewport_TargetDistance, ON_Viewport_GetBool, ON_Viewport_SetFrustum,
      ON_Viewport_GetFrustum, ON_Viewport_SetCameraLocation,
      ON_Viewport_SetCameraDirection, ON_Viewport_SetCameraUp,
      ON_Viewport_CameraLocation, ON_Viewport_CameraDirection,
      ON_Viewport_CameraUp, ON_Viewport_CameraAxis, ON_Viewport_SetLocked,
      ON_Viewport_GetCameraFrame, ON_Viewport_ChangeToParallelProjection,
      ON_Viewport_ChangeToPerspectiveProjection,
      ON_Viewport_ChangeToTwoPointPerspectiveProjection,
      ON_Viewport_ChangeToSymmetricFrustum, ON_Viewport_GetPointDepth,
      ON_Viewport_GetBoundingBoxDepth, ON_Viewport_GetSphereDepth,
      ON_Viewport_GetPlane, ON_Viewport_GetNearFarRect,
      ON_Viewport_SetViewportId, nilUUID]

/-- Claim C10: for every viewport and every selector outside the defined
index range of an enum-dispatched accessor, the accessor silently returns
its neutral result with no effect: GetBool returns false, GetDouble returns
0, GetPlane returns failure without writing the output plane, and CameraAxis
leaves the output buffer untouched. -/
theorem C10_out_of_range_selector_neutral (vp : Viewport) :
    (∀ which : ℤ, which < 0 ∨ 9 < which →
      ON_Viewport_GetBool (some vp) which = false) ∧
    (∀ which : ℤ, which < 0 ∨ 7 < which →
      ON_Viewport_GetDouble (some vp) which = 0) ∧
    (∀ which : ℤ, ∀ pbuf : Option Plane, which < 0 ∨ 5 < which →
      ON_Viewport_GetPlane (some vp) which pbuf = (false, pbuf)) ∧
    (∀ iAxis : ℤ, ∀ vbuf : Option Vector3, iAxis < 0 ∨ 2 < iAxis →
      ON_Viewport_CameraAxis (some vp) iAxis vbuf = vbuf) := by
  refine ⟨?_, ?_, ?_, ?_⟩
  · intro which h
    have h0 : ¬ which = 0 := by omega
    have h1 : ¬ which = 1 := by omega
    have h2 : ¬ which = 2 := by omega
    have h3 : ¬ which = 3 := by omega
    have h4 : ¬ which = 4 := by omega
    have h5 : ¬ which = 5 := by omega
    have h6 : ¬ which = 6 := by omega
    have h7 : ¬ which = 7 := by omega
    have h8 : ¬ which = 8 := by omega
    have h9 : ¬ which = 9 := by omega
    simp [ON_Viewport_GetBool, h0, h1, h2, h3, h4, h5, h6, h7, h8, h9]
  · intro which h
    have h0 : ¬ which = 0 := by omega
    have h1 : ¬ which = 1 := by omega
    have h2 : ¬ which = 2 := by omega
    have h3 : ¬ which = 3 := by omega
    have h4 : ¬ which = 4 := by omega
    have h5 : ¬ which = 5 := by omega
    have h6 : ¬ which = 6 := by omega
    have h7 : ¬ which = 7 := by omega
    simp [ON_Viewport_GetDouble, h0, h1, h2, h3, h4, h5, h6, h7]
  · intro which pbuf h
    have h0 : ¬ which = 0 := by omega
    have h1 : ¬ which = 1 := by omega
    have h2 : ¬ which = 2 := by omega
    have h3 : ¬ which = 3 := by omega
    have h4 : ¬ which = 4 := by omega
    have h5 : ¬ which = 5 := by omega
    cases pbuf <;> simp [ON_Viewport_GetPlane, h0, h1, h2, h3, h4, h5]
  · intro iAxis vbuf h
    have h0 : ¬ iAxis = 0 := by omega
    have h1 : ¬ iAxis = 1 := by omega
    have h2 : ¬ iAxis = 2 := by omega
    cases vbuf <;> simp [ON_Viewport_CameraAxis, h0, h1, h2]

/-- Claim C10 witness: concrete out-of-range selectors on the default
viewport. -/
theorem C10_neutral_witness :
    ON_Viewport_GetBool (some defaultViewport) 17 = false ∧
    ON_Viewport_GetDouble (some defaultViewport) (-3) = 0 ∧
    ON_Viewport_GetPlane (some defaultViewport) 11
      (some ⟨⟨1, 1, 1⟩, ⟨0, 0, 1⟩⟩) = (false, some ⟨⟨1, 1, 1⟩, ⟨0, 0, 1⟩⟩) ∧
    ON_Viewport_CameraAxis (some defaultViewport) 5 (some ⟨4, 4, 4⟩) =
      some ⟨4, 4, 4⟩ :=
  ⟨(C10_out_of_range_selector_neutral defaultViewport).1 17 (Or.inr (by norm_num)),
   (C10_out_of_range_selector_neutral defaultViewport).2.1 (-3) (Or.inl (by norm_num)),
   (C10_out_of_range_selector_neutral defaultViewport).2.2.1 11 _ (Or.inr (by norm_num)),
   (C10_out_of_range_selector_neutral defaultViewport).2.2.2 5 _ (Or.inr (by norm_num))⟩

/-- Claim C9: the null guard of ON_Viewport_GetNearFarRect tests leftBottom
twice and never tests rightTop, so with a non-null viewport and non-null
leftBottom, rightBottom and leftTop the call proceeds and produces all four
corners even when rightTop is null; by contrast, ON_Viewport_GetCameraFrame
returns failure as soon as any one of its four output pointers is null. -/
theorem C9_nearFarRect_null_guard_gap (vp : Viewport) (isNear : Bool)
    (lb rb lt : Point3) (h : vp.isValidFrustum = true) :
    (ON_Viewport_GetNearFarRect (some vp) isNear (some lb) (some rb) (some lt) none =
      (true, some ((if isNear then vp.getNearRect else vp.getFarRect).2))) ∧
    (∀ loc : Option Point3, ∀ cx cy cz : Option Vector3,
      loc = none ∨ cx = none ∨ cy = none ∨ cz = none →
      ON_Viewport_GetCameraFrame (some vp) loc cx cy cz = (false, none)) := by
  constructor
  · cases isNear <;>
      simp [ON_Viewport_GetNearFarRect, Viewport.getNearRect,
        Viewport.getFarRect, h]
  · intro loc cx cy cz hn
    cases loc <;> cases cx <;> cases cy <;> cases cz <;>
      simp_all [ON_Viewport_GetCameraFrame]

/-- Claim C9 witness: the gap at a concrete call on the default viewport. -/
theorem C9_null_guard_witness :
    defaultViewport.isValidFrustum = true ∧
    ((ON_Viewport_GetNearFarRect (some defaultViewport) true
        (some ⟨0, 0, 0⟩) (some ⟨0, 0, 0⟩) (some ⟨0, 0, 0⟩) none =
      (true, some ((if true then defaultViewport.getNearRect
                    else defaultViewport.getFarRect).2))) ∧
    (∀ loc : Option Point3, ∀ cx cy cz : Option Vector3,
      loc = none ∨ cx = none ∨ cy = none ∨ cz = none →
      ON_Viewport_GetCameraFrame (some defaultViewport) loc cx cy cz =
        (false, none))) :=
  ⟨by decide,
   C9_nearFarRect_null_guard_gap defaultViewport true ⟨0, 0, 0⟩ ⟨0, 0, 0⟩ ⟨0, 0, 0⟩
     (by decide)⟩
/-- Claim C8: for every viewport, GetBoundingBoxDepth (and likewise
GetPointDepth and GetSphereDepth) with growNearFar = true returns the union
of the caller-supplied [nearDistance, farDistance] interval with the
projected depth range of the geometry: the result interval is
[min nearDistance rangeNear, max farDistance rangeFar], which contains both
the supplied interval and the geometry's depth range. -/
theorem C8_depth_grow_union (vp : Viewport) (bmin bmax p center : Point3)
    (radius n0 f0 : ℚ) (grow : Bool) (hg : grow = true) :
    (ON_Viewport_GetBoundingBoxDepth (some vp) bmin bmax n0 f0 grow =
      (true, some (min n0 (vp.boxDepthRange bmin bmax).1,
                   max f0 (vp.boxDepthRange bmin bmax).2)) ∧
     min n0 (vp.boxDepthRange bmin bmax).1 ≤ n0 ∧
     min n0 (vp.boxDepthRange bmin bmax).1 ≤ (vp.boxDepthRange bmin bmax).1 ∧
     f0 ≤ max f0 (vp.boxDepthRange bmin bmax).2 ∧
     (vp.boxDepthRange bmin bmax).2 ≤ max f0 (vp.boxDepthRange bmin bmax).2) ∧
    ON_Viewport_GetPointDepth (some vp) p n0 f0 grow =
      (true, some (min n0 (vp.pointDepth p), max f0 (vp.pointDepth p))) ∧
    ON_Viewport_GetSphereDepth (some vp) center radius n0 f0 grow =
      (true, some (min n0 (vp.pointDepth center - radius),
                   max f0 (vp.pointDepth center + radius))) := by
  subst hg
  refine ⟨⟨?_, min_le_left _ _, min_le_right _ _, le_max_left _ _,
    le_max_right _ _⟩, ?_, ?_⟩ <;>
    simp [ON_Viewport_GetBoundingBoxDepth, Viewport.getBoundingBoxDepth,
      ON_Viewport_GetPointDepth, Viewport.getPointDepth,
      ON_Viewport_GetSphereDepth, Viewport.getSphereDepth]

/-- Claim C8 witness: with the camera at the origin looking down -z, an
initial interval (near = 5, far = 10) combined with a box whose projected
depth range is (2, 7) yields the union (2, 10). -/
theorem C8_union_witness :
    ON_Viewport_GetBoundingBoxDepth (some depthVP) ⟨0, 0, -7⟩ ⟨1, 1, -2⟩ 5 10 true =
      (true, some (2, 10)) := by
  have h := (C8_depth_grow_union depthVP ⟨0, 0, -7⟩ ⟨1, 1, -2⟩ ⟨0, 0, 0⟩
    ⟨0, 0, 0⟩ 0 5 10 true rfl).1.1
  rw [h]
  norm_num [Viewport.boxDepthRange, Viewport.boxCorners, Viewport.pointDepth,
    Point3.sub, Vector3.dot, depthVP, defaultViewport, min_def, max_def]

/-- Claim C7: copy-construction over the explicit heap — copying viewport
cell i allocates a fresh cell holding an equal viewport value (so every
query returns identical values on both), any subsequent mutation of the copy
leaves the original cell unchanged, and constructing from a null source
yields the default viewport. -/
theorem C7_copy_value_independence (heap : List Viewport) (i : ℕ) (v : Viewport)
    (h : heap.get? i = some v) :
    (heapNew heap (some i)).1.get? (heapNew heap (some i)).2 = some v ∧
    (heapNew heap (some i)).1.get? i = some v ∧
    (∀ f : Viewport → Viewport,
      (heapMutate (heapNew heap (some i)).1 (heapNew heap (some i)).2 f).get? i
        = some v) ∧
    (heapNew heap none).1.get? (heapNew heap none).2 = some defaultViewport := by
  obtain ⟨hi, -⟩ := List.get?_eq_some.mp h
  have hnew : heapNew heap (some i) = (heap ++ [v], heap.length) := by
    have hstep : heapNew heap (some i) =
        (match heap.get? i with
         | some w => (heap ++ [w], heap.length)
         | none => (heap ++ [defaultViewport], heap.length)) := rfl
    rw [hstep, h]
  refine ⟨?_, ?_, ?_, ?_⟩
  · rw [hnew]
    exact List.get?_concat_length heap v
  · rw [hnew]
    rw [List.get?_append hi]
    exact h
  · intro f
    rw [hnew]
    simp only [heapMutate, List.get?_concat_length]
    rw [List.get?_set_ne (f v) (heap ++ [v]) (by omega)]
    rw [List.get?_append hi]
    exact h
  · simp only [heapNew]
    exact List.get?_concat_length heap defaultViewport

/-- Claim C7 witness: copying the only cell of a one-viewport heap and then
mutating the copy, concretely. -/
theorem C7_copy_witness :
    (heapNew [defaultViewport] (some 0)).1.get? (heapNew [defaultViewport] (some 0)).2
      = some defaultViewport ∧
    (heapNew [defaultViewport] (some 0)).1.get? 0 = some defaultViewport ∧
    (∀ f : Viewport → Viewport,
      (heapMutate (heapNew [defaultViewport] (some 0)).1
        (heapNew [defaultViewport] (some 0)).2 f).get? 0 = some defaultViewport) ∧
    (heapNew [defaultViewport] none).1.get? (heapNew [defaultViewport] none).2
      = some defaultViewport :=
  C7_copy_value_independence [defaultViewport] 0 defaultViewport rfl

/-- Claim C4: each of the four projection-transition operations returns
failure with no state change when the viewport's camera/frustum is currently
invalid, and on success the resulting frustum satisfies the invariants
left < right, bottom < top, 0 < near < far. -/
theorem C4_projection_transition_contract (vp : Viewport) (sym lrSym tbSym : Bool)
    (td lens : ℚ) (up : Vector3) :
    (vp.isValid = false →
      ON_Viewport_ChangeToParallelProjection (some vp) sym = (false, some vp) ∧
      ON_Viewport_ChangeToPerspectiveProjection (some vp) td sym lens = (false, some vp) ∧
      ON_Viewport_ChangeToTwoPointPerspectiveProjection (some vp) td up lens = (false, some vp) ∧
      ON_Viewport_ChangeToSymmetricFrustum (some vp) lrSym tbSym td = (false, some vp)) ∧
    (∀ vp' : Viewport,
      (ON_Viewport_ChangeToParallelProjection (some vp) sym = (true, some vp') ∨
       ON_Viewport_ChangeToPerspectiveProjection (some vp) td sym lens = (true, some vp') ∨
       ON_Viewport_ChangeToTwoPointPerspectiveProjection (some vp) td up lens = (true, some vp') ∨
       ON_Viewport_ChangeToSymmetricFrustum (some vp) lrSym tbSym td = (true, some vp')) →
      vp'.isValidFrustum = true) := by
  have hfr : vp.isValid = true →
      vp.frustum.left < vp.frustum.right ∧ vp.frustum.bottom < vp.frustum.top ∧
      0 < vp.frustum.nearDist ∧ vp.frustum.nearDist < vp.frustum.farDist := by
    intro hv
    have hv2 : vp.isValidCamera = true ∧ vp.isValidFrustum = true := by
      simpa [Viewport.isValid, Bool.and_eq_true] using hv
    exact frustumBoundsValid_eq_true_iff.mp hv2.2
  constructor
  · intro h
    refine ⟨?_, ?_, ?_, ?_⟩ <;>
      simp [ON_Viewport_ChangeToParallelProjection,
        Viewport.changeToParallelProjection,
        ON_Viewport_ChangeToPerspectiveProjection,
        Viewport.changeToPerspectiveProjection,
        ON_Viewport_ChangeToTwoPointPerspectiveProjection,
        Viewport.changeToTwoPointPerspectiveProjection,
        ON_Viewport_ChangeToSymmetricFrustum,
        Viewport.changeToSymmetricFrustum, h]
  · intro vp' hsucc
    rcases hsucc with h | h | h | h
    · replace h : vp.changeToParallelProjection sym = (true, vp') :=
        pair_some_eq_iff.mp h
      unfold Viewport.changeToParallelProjection at h
      by_cases hv : vp.isValid = true
      · obtain ⟨h1, h2, h3, h4⟩ := hfr hv
        rw [if_pos hv] at h
        simp only [Prod.mk.injEq, true_and] at h
        subst h
        refine frustumBoundsValid_eq_true_iff.mpr ⟨?_, ?_, h3, h4⟩
        · cases sym <;> simp [Viewport.symmetrize] <;> linarith
        · cases sym <;> simp [Viewport.symmetrize] <;> linarith
      · rw [if_neg hv] at h
        simp only [Prod.mk.injEq] at h
        exact absurd h.1 (by simp)
    · replace h : vp.changeToPerspectiveProjection td sym lens = (true, vp') :=
        pair_some_eq_iff.mp h
      unfold Viewport.changeToPerspectiveProjection at h
      by_cases hg : (vp.isValid && decide (0 < td) && decide (0 < lens)) = true
      · have hg2 := hg
        simp only [Bool.and_eq_true, decide_eq_true_eq] at hg2
        obtain ⟨⟨hv, htd⟩, hlens⟩ := hg2
        obtain ⟨h1, h2, h3, h4⟩ := hfr hv
        rw [if_pos hg] at h
        simp only [Prod.mk.injEq, true_and] at h
        subst h
        have hw := div_pos (mul_pos h3 (by norm_num : (0:ℚ) < 18)) hlens
        have hh := div_pos (mul_pos h3 (by norm_num : (0:ℚ) < 12)) hlens
        exact frustumBoundsValid_eq_true_iff.mpr
          ⟨by linarith, by linarith, h3, h4⟩
      · rw [if_neg hg] at h
        simp only [Prod.mk.injEq] at h
        exact absurd h.1 (by simp)
    · replace h : vp.changeToTwoPointPerspectiveProjection td up lens = (true, vp') :=
        pair_some_eq_iff.mp h
      unfold Viewport.changeToTwoPointPerspectiveProjection at h
      by_cases hg : (vp.isValid && decide (0 < td) && decide (0 < lens)
          && decide (vp.cameraDirection.cross up ≠ Vector3.zero)) = true
      · have hg2 := hg
        simp only [Bool.and_eq_true, decide_eq_true_eq] at hg2
        obtain ⟨⟨⟨hv, htd⟩, hlens⟩, hup⟩ := hg2
        obtain ⟨h1, h2, h3, h4⟩ := hfr hv
        rw [if_pos hg] at h
        simp only [Prod.mk.injEq, true_and] at h
        subst h
        have hw := div_pos (mul_pos h3 (by norm_num : (0:ℚ) < 18)) hlens
        have hh := div_pos (mul_pos h3 (by norm_num : (0:ℚ) < 12)) hlens
        exact frustumBoundsValid_eq_true_iff.mpr
          ⟨by linarith, by linarith, h3, h4⟩
      · rw [if_neg hg] at h
        simp only [Prod.mk.injEq] at h
        exact absurd h.1 (by simp)
    · replace h : vp.changeToSymmetricFrustum lrSym tbSym td = (true, vp') :=
        pair_some_eq_iff.mp h
      unfold Viewport.changeToSymmetricFrustum at h
      by_cases hv : vp.isValid = true
      · obtain ⟨h1, h2, h3, h4⟩ := hfr hv
        rw [if_pos hv] at h
        simp only [Prod.mk.injEq, true_and] at h
        subst h
        refine frustumBoundsValid_eq_true_iff.mpr ⟨?_, ?_, h3, h4⟩
        · cases lrSym <;> simp [Viewport.symmetrize] <;> linarith
        · cases tbSym <;> simp [Viewport.symmetrize] <;> linarith
      · rw [if_neg hv] at h
        simp only [Prod.mk.injEq] at h
        exact absurd h.1 (by simp)

/-- Claim C4 witness: the four transitions fail without state change on a
viewport with a degenerate camera, and a successful symmetric
parallel-projection transition on the default viewport leaves the frustum
invariants holding. -/
theorem C4_transition_witness :
    (ON_Viewport_ChangeToParallelProjection (some invalidCameraVP) true =
       (false, some invalidCameraVP) ∧
     ON_Viewport_ChangeToPerspectiveProjection (some invalidCameraVP) 1 true 50 =
       (false, some invalidCameraVP) ∧
     ON_Viewport_ChangeToTwoPointPerspectiveProjection (some invalidCameraVP) 1 ⟨0, 1, 0⟩ 50 =
       (false, some invalidCameraVP) ∧
     ON_Viewport_ChangeToSymmetricFrustum (some invalidCameraVP) true true 1 =
       (false, some invalidCameraVP)) ∧
    parallelVP.isValidFrustum = true :=
  ⟨(C4_projection_transition_contract invalidCameraVP true true true 1 50 ⟨0, 1, 0⟩).1
     (by norm_num [invalidCameraVP, defaultViewport, Viewport.isValid,
       Viewport.isValidCamera, Vector3.cross, Vector3.zero, Vector3.mk.injEq]),
   (C4_projection_transition_contract defaultViewport true true true 1 50 ⟨0, 1, 0⟩).2
     parallelVP (Or.inl (by
       have h1 : defaultViewport.isValid = true := by
         norm_num [defaultViewport, Viewport.isValid, Viewport.isValidCamera,
           Viewport.isValidFrustum, Viewport.frustumBoundsValid,
           Vector3.cross, Vector3.zero, Vector3.mk.injEq]
       simp [ON_Viewport_ChangeToParallelProjection, parallelVP,
         Viewport.changeToParallelProjection, h1]))⟩

end OnViewport
